import Mathlib

/-!
# Verification of the Monday.com group-extraction script

A shallow embedding of `src/monday_extract_groups.py` and proofs about it.

The script talks to a GraphQL endpoint over HTTP.  The embedding models a
response body at exactly the granularity the Python code inspects it:

* a JSON object key the code reads with `dict[k]` or `dict.get(k, d)` becomes
  an `Option` field (`none` = key absent, triggering the `KeyError` branch or
  the `.get` default, respectively);
* `response.status_code` and the `'errors' in data` membership test become
  plain fields of `ApiResponse`;
* `sys.exit(1)` after printing a message becomes `Except.error` carrying the
  printed message's prefix (the interpolated ids are irrelevant to control
  flow and are dropped);
* the remote service is a `Service`: the response to the one first-page query
  plus a function from cursor strings to next-page responses;
* the unbounded `while cursor:` loop becomes the fuel-indexed `loopFuel`; a
  `none` result means the loop has not finished within the given fuel (the
  Python loop is still running), `some` is the decided outcome together with
  the total number of HTTP requests issued.
-/

namespace MondayExtract

/-- One entry of an item's `column_values` list (`id`, optional `text`). -/
structure ColumnValue where
  id : String
  text : Option String
deriving DecidableEq

/-- One work item as returned by the service: `id`, `name`, `column_values`. -/
structure Item where
  id : String
  name : String
  column_values : List ColumnValue
deriving DecidableEq

/-- The `items_page` object of a first-page response: optional `cursor`
key and optional `items` key (the code reads both with `.get`). -/
structure ItemsPage where
  cursor : Option String
  items : Option (List Item)
deriving DecidableEq

/-- A group object of a first-page response; only its `items_page` key is
ever read (with `.get('items_page', {})`). -/
structure GroupNode where
  items_page : Option ItemsPage
deriving DecidableEq

/-- A board object of a first-page response; `groups` is `none` when the
`'groups'` key is absent. -/
structure BoardNode where
  groups : Option (List GroupNode)
deriving DecidableEq

/-- The `data` object of a first-page response (`boards` key optional). -/
structure FirstData where
  boards : Option (List BoardNode)
deriving DecidableEq

/-- The `next_items_page` object of a subsequent-page response. -/
structure NextPage where
  cursor : Option String
  items : Option (List Item)
deriving DecidableEq

/-- The `data` object of a subsequent-page response; `none` for
`next_items_page` covers the absent key (`KeyError`) and the malformed
object (`TypeError`), both caught by the same `except` clause. -/
structure NextData where
  next_items_page : Option NextPage
deriving DecidableEq

/-- A parsed HTTP response: status code, the optional `errors` array
(`isSome` iff the `'errors'` key is present) and the optional `data`
object. -/
structure ApiResponse (β : Type) where
  status_code : Nat
  errors : Option (List String)
  data : Option β
deriving DecidableEq

/-- The remote service as the pagination driver sees it: the response to
the initial by-group query, and the response to the `next_items_page`
query for each cursor string. -/
structure Service where
  firstResponse : ApiResponse FirstData
  nextResponse : String → ApiResponse NextData

/-- The default `{}` supplied by `group.get('items_page', {})`. -/
def emptyItemsPage : ItemsPage := ⟨none, none⟩

/-- Python truthiness of the cursor: `while cursor:` runs only when the
cursor is neither `None` nor the empty string. -/
def truthy : Option String → Bool
  | none => false
  | some s => !(s == "")

/-- Lines 243-265 of the script: status check, `'errors' in data` check and
the `try` block extracting `data['data']['boards'][0]['groups'][0]`, then
`items_page.get('items', [])` and `items_page.get('cursor')`. -/
def processFirstResponse (resp : ApiResponse FirstData) :
    Except String (List Item × Option String) :=
  if resp.status_code ≠ 200 then .error "Initial query failed with status code"
  else if resp.errors.isSome then .error "GraphQL Errors in initial query:"
  else
    match resp.data with
    | none => .error "Error parsing initial response:"
    | some d =>
      match d.boards with
      | none => .error "Error parsing initial response:"
      | some [] => .error "Error parsing initial response:"
      | some (b :: _) =>
        match b.groups with
        | none => .error "Error parsing initial response:"
        | some [] => .error "Error parsing initial response:"
        | some (g :: _) =>
          let ip := g.items_page.getD emptyItemsPage
          .ok (ip.items.getD [], ip.cursor)

/-- Lines 296-317 of the script: status check, `'errors' in data` check and
the `try` block extracting `data['data']['next_items_page']`, then
`.get('items', [])` and `.get('cursor')`. -/
def processNextResponse (resp : ApiResponse NextData) :
    Except String (List Item × Option String) :=
  if resp.status_code ≠ 200 then .error "Next items query failed with status code"
  else if resp.errors.isSome then .error "GraphQL Errors in next_items_page query:"
  else
    match resp.data with
    | none => .error "Error parsing next_items_page response:"
    | some d =>
      match d.next_items_page with
      | none => .error "Error parsing next_items_page response:"
      | some np => .ok (np.items.getD [], np.cursor)

/-- The `while cursor:` loop of `fetch_items_recursive`, indexed by fuel.
`acc` is `all_items`, `n` the number of HTTP requests issued so far.
`none` means the loop is still running after `fuel` iterations; `some`
pairs the final outcome with the total request count. -/
def loopFuel (svc : Service) : Nat → List Item → Option String → Nat →
    Option (Except String (List Item) × Nat)
  | 0, acc, cursor, n =>
    if truthy cursor then none else some (.ok acc, n)
  | fuel + 1, acc, cursor, n =>
    if truthy cursor then
      match processNextResponse (svc.nextResponse (cursor.getD "")) with
      | .error e => some (.error e, n + 1)
      | .ok (items, cursor2) => loopFuel svc fuel (acc ++ items) cursor2 (n + 1)
    else some (.ok acc, n)

/-- Lines 188-319 of the script: issue the first-page query (one request),
then run the cursor loop.  `some (.ok items, n)` = the Python function
returns `items` having issued `n` requests; `some (.error e, n)` = it
calls `sys.exit(1)` after printing `e`, having issued `n` requests;
`none` = still looping after `fuel` iterations. -/
def fetch_items_recursive (svc : Service) (fuel : Nat) :
    Option (Except String (List Item) × Nat) :=
  match processFirstResponse svc.firstResponse with
  | .error e => some (.error e, 1)
  | .ok (items, cursor) => loopFuel svc fuel items cursor 1

/-- A first-page response with status 200, no `errors` key, one board with
one group whose `items_page` holds the given items and cursor. -/
def mkOkFirst (page : List Item × Option String) : ApiResponse FirstData :=
  ⟨200, none, some ⟨some [⟨some [⟨some ⟨page.2, some page.1⟩⟩]⟩]⟩⟩

/-- A next-page response with status 200, no `errors` key, and a
`next_items_page` object holding the given items and cursor. -/
def mkOkNext (page : List Item × Option String) : ApiResponse NextData :=
  ⟨200, none, some ⟨some ⟨page.2, some page.1⟩⟩⟩

theorem processFirst_mkOkFirst (p : List Item × Option String) :
    processFirstResponse (mkOkFirst p) = .ok p := rfl

theorem processNext_mkOkNext (p : List Item × Option String) :
    processNextResponse (mkOkNext p) = .ok p := rfl

/-- A non-truthy cursor (absent or empty) ends the loop at once, with the
accumulator and request count unchanged, whatever the fuel. -/
theorem loopFuel_not_truthy (svc : Service) (fuel : Nat) (acc : List Item)
    (cursor : Option String) (n : Nat) (h : truthy cursor = false) :
    loopFuel svc fuel acc cursor n = some (.ok acc, n) := by
  cases fuel <;> simp [loopFuel, h]

/-- Specialisation: a `none` cursor ends the loop. -/
theorem loopFuel_none (svc : Service) (fuel : Nat) (acc : List Item) (n : Nat) :
    loopFuel svc fuel acc none n = some (.ok acc, n) :=
  loopFuel_not_truthy svc fuel acc none n rfl

/-! ## Concrete items and services used in scenarios and counterexamples -/

/-- `item1` of the spec's pagination scenario (column values irrelevant). -/
def item1 : Item := ⟨"1", "item1", []⟩

/-- `item2` of the spec's pagination scenario. -/
def item2 : Item := ⟨"2", "item2", []⟩

/-- `item3` of the spec's pagination scenario. -/
def item3 : Item := ⟨"3", "item3", []⟩

/-- The spec's scenario service: first page `[item1, item2]` with cursor
`"c1"`; the next-page query for `"c1"` returns `[item3]` with a null
cursor (any other cursor string returns an empty final page). -/
def scenarioService : Service :=
  ⟨mkOkFirst ([item1, item2], some "c1"),
   fun c => if c = "c1" then mkOkNext ([item3], none) else mkOkNext ([], none)⟩

/-- A degenerate looping service: every page carries cursor `"c1"` again,
so the cursor chain never ends. -/
def loopService : Service :=
  ⟨mkOkFirst ([], some "c1"), fun _ => mkOkNext ([], some "c1")⟩

/-- On `loopService` the `while cursor:` loop is still running after any
number of iterations: no iteration bound or page ceiling exists in the
code, so the traversal never finishes. -/
theorem loopFuel_loopService (fuel : Nat) : ∀ (acc : List Item) (n : Nat),
    loopFuel loopService fuel acc (some "c1") n = none := by
  induction fuel with
  | zero => intro acc n; simp [loopFuel, truthy]
  | succ fuel ih =>
    intro acc n
    simpa [loopFuel, truthy, loopService, processNext_mkOkNext] using ih acc (n + 1)

/-- A service whose single page has no cursor at all. -/
def singlePageService : Service :=
  ⟨mkOkFirst ([item1], none), fun _ => mkOkNext ([], none)⟩

/-- A service whose next-page response parses to a missing
`next_items_page` object. -/
def svcBadNext : Service :=
  ⟨mkOkFirst ([], some "c1"), fun _ => ⟨200, none, some ⟨none⟩⟩⟩

/-- A service whose first-page response has a group without the
`items_page` key. -/
def svcNoItemsPage : Service :=
  ⟨⟨200, none, some ⟨some [⟨some [⟨none⟩]⟩]⟩⟩, fun _ => ⟨200, none, none⟩⟩

/-- A service whose every response has a non-success HTTP status. -/
def svcBadStatus : Service := ⟨⟨500, none, none⟩, fun _ => ⟨500, none, none⟩⟩

/-- A service whose first-page response is missing the `data` object, so
parsing it fails. -/
def svcNoData : Service := ⟨⟨200, none, none⟩, fun _ => ⟨200, none, none⟩⟩

/-! ## Claim theorems -/

/-- C4: with the first page `[item1, item2]` carrying cursor `"c1"` and the
next-page fetch for `"c1"` returning `[item3]` with a null cursor,
`fetch_items_recursive` performs exactly 2 fetches and returns
`[item1, item2, item3]`. -/
theorem scenario_two_pages :
    fetch_items_recursive scenarioService 10 =
      some (.ok [item1, item2, item3], 2) := rfl

/-- C5 counterexample: on the looping service (every next-page response
repeats cursor `"c1"`) the driver has not aborted after 100 loop
iterations — it is still fetching; no configurable page ceiling exists in
`fetch_items_recursive` (its only parameters are board, group, key and
page size). -/
theorem loopService_still_running_100 :
    fetch_items_recursive loopService 100 = none := rfl

/-- C5 (amended): the driver has no maximum-page safety ceiling; when the
service keeps returning the already-seen cursor `"c1"`, the `while cursor:`
loop never terminates — for every iteration bound the traversal is still
running, so the code loops forever rather than aborting. -/
theorem loopService_never_terminates (fuel : Nat) :
    fetch_items_recursive loopService fuel = none :=
  loopFuel_loopService fuel [] 1

/-- C2: a fetch that yields an absent cursor (`None` or `""`) ends the
traversal: no further fetch is issued and the accumulated items are
returned.  First conjunct: if the first page's cursor is absent, the
driver returns that page's items after exactly one fetch.  Second
conjunct: if a next-page fetch (request number `n + 1`) yields an absent
cursor, the loop returns the accumulator extended by that page, with the
request count stopped at `n + 1`. -/
theorem cursor_absent_stops :
    (∀ (svc : Service) (fuel : Nat) (items : List Item) (c : Option String),
        processFirstResponse svc.firstResponse = .ok (items, c) →
        truthy c = false →
        fetch_items_recursive svc fuel = some (.ok items, 1)) ∧
    (∀ (svc : Service) (fuel : Nat) (acc items : List Item) (n : Nat)
        (c : String) (c2 : Option String),
        truthy (some c) = true →
        processNextResponse (svc.nextResponse c) = .ok (items, c2) →
        truthy c2 = false →
        loopFuel svc (fuel + 1) acc (some c) n = some (.ok (acc ++ items), n + 1)) := by
  constructor
  · intro svc fuel items c h1 h2
    unfold fetch_items_recursive
    rw [h1]
    exact loopFuel_not_truthy svc fuel items c 1 h2
  · intro svc fuel acc items n c c2 h1 h2 h3
    simp only [loopFuel, h1, if_true, Option.getD_some, h2]
    exact loopFuel_not_truthy svc fuel (acc ++ items) c2 (n + 1) h3

/-- C2 witness: on a concrete service whose first page holds `[item1]` and
no cursor, exactly one fetch occurs and `[item1]` is returned. -/
theorem cursor_absent_stops_witness :
    fetch_items_recursive singlePageService 5 = some (.ok [item1], 1) :=
  cursor_absent_stops.1 singlePageService 5 [item1] none rfl rfl

/-- C3 counterexample: a first-page response whose group is missing the
`items_page` key is not a shape error at all — `group.get('items_page', {})`
silently defaults, and the driver returns the empty item list successfully
after one fetch instead of reporting an error and aborting. -/
theorem items_page_absent_not_fatal :
    fetch_items_recursive svcNoItemsPage 5 = some (.ok [], 1) := rfl

/-- C3 (amended): an absent board (missing `data`, missing `boards`, or an
empty board list), an absent group (missing `groups` key or empty group
list) in the first-page response, and an absent/malformed
`next_items_page` object in a subsequent response are all fatal shape
errors: the driver aborts the whole operation and performs no further
fetches (the request count stops at the failing request).  An absent
`items_page` key in the first-page response is, by exception, not an
error: it yields an empty page with no cursor. -/
theorem shape_errors_fatal :
    (∀ (nf : String → ApiResponse NextData) (fuel : Nat),
        fetch_items_recursive ⟨⟨200, none, none⟩, nf⟩ fuel =
          some (.error "Error parsing initial response:", 1)) ∧
    (∀ (nf : String → ApiResponse NextData) (fuel : Nat),
        fetch_items_recursive ⟨⟨200, none, some ⟨none⟩⟩, nf⟩ fuel =
          some (.error "Error parsing initial response:", 1)) ∧
    (∀ (nf : String → ApiResponse NextData) (fuel : Nat),
        fetch_items_recursive ⟨⟨200, none, some ⟨some []⟩⟩, nf⟩ fuel =
          some (.error "Error parsing initial response:", 1)) ∧
    (∀ (nf : String → ApiResponse NextData) (fuel : Nat) (bs : List BoardNode),
        fetch_items_recursive ⟨⟨200, none, some ⟨some (⟨none⟩ :: bs)⟩⟩, nf⟩ fuel =
          some (.error "Error parsing initial response:", 1)) ∧
    (∀ (nf : String → ApiResponse NextData) (fuel : Nat) (bs : List BoardNode),
        fetch_items_recursive ⟨⟨200, none, some ⟨some (⟨some []⟩ :: bs)⟩⟩, nf⟩ fuel =
          some (.error "Error parsing initial response:", 1)) ∧
    (∀ (svc : Service) (fuel : Nat) (acc : List Item) (n : Nat) (c : String),
        truthy (some c) = true →
        ((svc.nextResponse c).data = none ∨ (svc.nextResponse c).data = some ⟨none⟩) →
        (svc.nextResponse c).status_code = 200 →
        (svc.nextResponse c).errors = none →
        loopFuel svc (fuel + 1) acc (some c) n =
          some (.error "Error parsing next_items_page response:", n + 1)) := by
  refine ⟨fun nf fuel => rfl, fun nf fuel => rfl, fun nf fuel => rfl,
    fun nf fuel bs => rfl, fun nf fuel bs => rfl, ?_⟩
  intro svc fuel acc n c h1 hdata h200 herr
  have hnext : processNextResponse (svc.nextResponse c) =
      .error "Error parsing next_items_page response:" := by
    rcases hdata with h | h <;> simp [processNextResponse, h200, herr, h]
  simp [loopFuel, h1, hnext]

/-- C3 witness: on a concrete service whose next-page response is missing
the `next_items_page` object, the loop aborts at request 2 with the
parse-error message. -/
theorem shape_errors_fatal_witness :
    loopFuel svcBadNext 1 [] (some "c1") 1 =
      some (.error "Error parsing next_items_page response:", 2) :=
  shape_errors_fatal.2.2.2.2.2 svcBadNext 0 [] 1 "c1" rfl (Or.inr rfl) rfl rfl

/-- C7: every failing transition of the pagination loop — non-success HTTP
status, a service-reported error list, or a response parse failure, on the
first-page or any next-page request — aborts the entire operation at that
request: the result is the error (no accumulated items are returned to
the caller) and the request count stops there, so nothing is retried or
resumed.  A first-page parse failure is exactly a response on which
`processFirstResponse` yields the initial parse error (the `try` block of
lines 256-265: missing `data`, missing or empty `boards`, missing or
empty `groups`); a next-page parse failure is one on which
`processNextResponse` yields the next-page parse error (the `try` block
of lines 309-317: missing or malformed `next_items_page`). -/
theorem transition_failures_abort :
    (∀ (svc : Service) (fuel : Nat), svc.firstResponse.status_code ≠ 200 →
        fetch_items_recursive svc fuel =
          some (.error "Initial query failed with status code", 1)) ∧
    (∀ (svc : Service) (fuel : Nat), svc.firstResponse.status_code = 200 →
        svc.firstResponse.errors.isSome = true →
        fetch_items_recursive svc fuel =
          some (.error "GraphQL Errors in initial query:", 1)) ∧
    (∀ (svc : Service) (fuel : Nat),
        processFirstResponse svc.firstResponse =
          .error "Error parsing initial response:" →
        fetch_items_recursive svc fuel =
          some (.error "Error parsing initial response:", 1)) ∧
    (∀ (svc : Service) (fuel : Nat) (acc : List Item) (n : Nat) (c : String),
        truthy (some c) = true → (svc.nextResponse c).status_code ≠ 200 →
        loopFuel svc (fuel + 1) acc (some c) n =
          some (.error "Next items query failed with status code", n + 1)) ∧
    (∀ (svc : Service) (fuel : Nat) (acc : List Item) (n : Nat) (c : String),
        truthy (some c) = true → (svc.nextResponse c).status_code = 200 →
        (svc.nextResponse c).errors.isSome = true →
        loopFuel svc (fuel + 1) acc (some c) n =
          some (.error "GraphQL Errors in next_items_page query:", n + 1)) ∧
    (∀ (svc : Service) (fuel : Nat) (acc : List Item) (n : Nat) (c : String),
        truthy (some c) = true →
        processNextResponse (svc.nextResponse c) =
          .error "Error parsing next_items_page response:" →
        loopFuel svc (fuel + 1) acc (some c) n =
          some (.error "Error parsing next_items_page response:", n + 1)) := by
  refine ⟨?_, ?_, ?_, ?_, ?_, ?_⟩
  · intro svc fuel h
    unfold fetch_items_recursive processFirstResponse
    simp [h]
  · intro svc fuel h200 herr
    unfold fetch_items_recursive processFirstResponse
    simp [h200, herr]
  · intro svc fuel h
    unfold fetch_items_recursive
    rw [h]
  · intro svc fuel acc n c h1 h
    have hnext : processNextResponse (svc.nextResponse c) =
        .error "Next items query failed with status code" := by
      simp [processNextResponse, h]
    simp [loopFuel, h1, hnext]
  · intro svc fuel acc n c h1 h200 herr
    have hnext : processNextResponse (svc.nextResponse c) =
        .error "GraphQL Errors in next_items_page query:" := by
      simp [processNextResponse, h200, herr]
    simp [loopFuel, h1, hnext]
  · intro svc fuel acc n c h1 h2
    simp [loopFuel, h1, h2]

/-- C7 witness: a service answering HTTP 500 makes the driver abort after
the single first request with the status-error message, and a service
whose 200-status first response is missing the `data` object makes it
abort after that request with the parse-error message. -/
theorem transition_failures_abort_witness :
    fetch_items_recursive svcBadStatus 3 =
      some (.error "Initial query failed with status code", 1) ∧
    fetch_items_recursive svcNoData 3 =
      some (.error "Error parsing initial response:", 1) :=
  ⟨transition_failures_abort.1 svcBadStatus 3 (by decide),
   transition_failures_abort.2.2.1 svcNoData 3 rfl⟩

/-! ## The exact-chunking service: a master list served in pages of `limit`
items, with a cursor exactly when items remain.  Cursors are opaque
strings; the offset of the next unserved item is encoded in the cursor's
length, which the service decodes back. -/

/-- An opaque cursor string encoding `n` (as its length, so the service
can decode it; the driver never inspects it, matching the contract). -/
def natCursor (n : Nat) : String := String.mk (List.replicate n 'c')

/-- The page starting at offset `off`: the next `limit` items of `master`,
plus a cursor to the following offset when further items remain. -/
def pageOf (master : List Item) (limit off : Nat) : List Item × Option String :=
  ((master.drop off).take limit,
    if off + limit < master.length then some (natCursor (off + limit)) else none)

/-- The well-behaved service delivering `master` in pages of exactly
`limit` items (the last page possibly shorter). -/
def chunkService (master : List Item) (limit : Nat) : Service :=
  ⟨mkOkFirst (pageOf master limit 0), fun c => mkOkNext (pageOf master limit c.length)⟩

theorem natCursor_length (n : Nat) : (natCursor n).length = n := by
  simp [natCursor, String.length]

theorem truthy_natCursor (n : Nat) (h : 0 < n) :
    truthy (some (natCursor n)) = true := by
  have hne : natCursor n ≠ "" := by
    intro he
    have h1 : (natCursor n).length = n := natCursor_length n
    rw [he] at h1
    have h2 : ("" : String).length = 0 := rfl
    omega
  simp [truthy, hne]

/-- Running the loop over `chunkService` from offset `off` (with
`0 < off < master.length`) appends the rest of `master` and issues exactly
`⌈(master.length - off) / limit⌉` further requests, provided the fuel
covers them. -/
theorem loopFuel_chunkService (master : List Item) (N : Nat) (hN : 0 < N) :
    ∀ (fuel off : Nat) (acc : List Item) (n : Nat),
      0 < off → off < master.length →
      (master.length - off + N - 1) / N ≤ fuel →
      loopFuel (chunkService master N) fuel acc (some (natCursor off)) n =
        some (.ok (acc ++ master.drop off), n + (master.length - off + N - 1) / N) := by
  intro fuel
  induction fuel with
  | zero =>
    intro off acc n hoff hlt hfuel
    exfalso
    have h1 : 0 < (master.length - off + N - 1) / N :=
      Nat.div_pos (by omega) hN
    omega
  | succ fuel ih =>
    intro off acc n hoff hlt hfuel
    rw [loopFuel]
    rw [if_pos (truthy_natCursor off hoff)]
    have hresp : processNextResponse
        ((chunkService master N).nextResponse ((some (natCursor off)).getD "")) =
        .ok (pageOf master N off) := by
      simp only [chunkService, Option.getD_some, natCursor_length]
      exact processNext_mkOkNext (pageOf master N off)
    rw [hresp]
    by_cases hc : off + N < master.length
    · simp only [pageOf, if_pos hc]
      have hkey : (master.length - off + N - 1) / N =
          (master.length - (off + N) + N - 1) / N + 1 := by
        have harith : master.length - off + N - 1 =
            (master.length - (off + N) + N - 1) + N := by omega
        rw [harith, Nat.add_div_right _ hN]
      have hfuel2 : (master.length - (off + N) + N - 1) / N ≤ fuel := by
        have h3 : (master.length - (off + N) + N - 1) / N + 1 ≤ fuel + 1 := by
          rw [← hkey]; exact hfuel
        exact Nat.le_of_succ_le_succ h3
      rw [ih (off + N) (acc ++ (master.drop off).take N) (n + 1) (by omega) hc hfuel2]
      have hdrop : master.drop (off + N) = (master.drop off).drop N := by
        rw [List.drop_drop]
      have hcount : n + 1 + (master.length - (off + N) + N - 1) / N =
          n + (master.length - off + N - 1) / N := by
        rw [hkey, Nat.add_assoc, Nat.add_comm 1]
      rw [hdrop, List.append_assoc, List.take_append_drop, hcount]
    · simp only [pageOf, if_neg hc]
      rw [loopFuel_none]
      have htake : (master.drop off).take N = master.drop off :=
        List.take_of_length_le (by simp [List.length_drop]; omega)
      have hdiv : (master.length - off + N - 1) / N = 1 := by
        apply Nat.div_eq_of_lt_le <;> omega
      rw [htake, hdiv]

/-- C1 (amended): against the exact-chunking service delivering a master
list of `M` items in pages of `N ≥ 1`, the driver terminates after
`max 1 ⌈M/N⌉` total fetches — `⌈M/N⌉` fetches, the mandatory first fetch
counted among them, with the first fetch alone when `M = 0` — and returns
exactly the `M` items concatenated in page order with item order within
each page preserved: no reordering, deduplication, or sorting. -/
theorem chunk_pagination_count_and_order (master : List Item) (N fuel : Nat)
    (hN : 0 < N) (hfuel : (master.length + N - 1) / N ≤ fuel) :
    fetch_items_recursive (chunkService master N) fuel =
      some (.ok master, max 1 ((master.length + N - 1) / N)) := by
  unfold fetch_items_recursive
  rw [show (chunkService master N).firstResponse = mkOkFirst (pageOf master N 0) from rfl,
    processFirst_mkOkFirst]
  simp only [pageOf, List.drop_zero, Nat.zero_add]
  by_cases hc : N < master.length
  · rw [if_pos hc]
    have hfuel2 : (master.length - N + N - 1) / N ≤ fuel := by
      calc (master.length - N + N - 1) / N ≤ (master.length + N - 1) / N :=
            Nat.div_le_div_right (by omega)
        _ ≤ fuel := hfuel
    rw [loopFuel_chunkService master N hN fuel N (master.take N) 1 hN hc hfuel2]
    rw [List.take_append_drop]
    have hkey : (master.length + N - 1) / N = (master.length - N + N - 1) / N + 1 := by
      have harith : master.length + N - 1 = (master.length - N + N - 1) + N := by omega
      rw [harith, Nat.add_div_right _ hN]
    have hmax : max 1 ((master.length + N - 1) / N) =
        (master.length - N + N - 1) / N + 1 := by
      rw [hkey]
      exact Nat.max_eq_right (Nat.le_add_left 1 _)
    rw [hmax, Nat.add_comm 1]
  · rw [if_neg hc]
    rw [loopFuel_none]
    have htake : master.take N = master := List.take_of_length_le (by omega)
    have hdiv : (master.length + N - 1) / N ≤ 1 := by
      have h2 : (master.length + N - 1) / N < 2 := by
        rw [Nat.div_lt_iff_lt_mul hN]
        omega
      exact Nat.lt_succ_iff.mp h2
    have hmax : max 1 ((master.length + N - 1) / N) = 1 := Nat.max_eq_left hdiv
    rw [htake, hmax]

/-- C1 witness: three items at page size 2 — the driver returns all three
items in order after 2 total fetches (`⌈3/2⌉ = 2`), within fuel 5. -/
theorem chunk_pagination_count_and_order_witness :
    fetch_items_recursive (chunkService [item1, item2, item3] 2) 5 =
      some (.ok [item1, item2, item3], max 1 ((3 + 2 - 1) / 2)) :=
  chunk_pagination_count_and_order [item1, item2, item3] 2 5 (by decide) (by decide)

/-- C1 counterexample: for `M = 3` items at page size `N = 2` the code
performs 2 fetches in total, not the claimed `⌈M/N⌉` fetches *plus* the
first fetch (which would be 3). -/
theorem chunk_pagination_count_counterexample :
    fetch_items_recursive (chunkService [item1, item2, item3] 2) 5 =
      some (.ok [item1, item2, item3], 2) ∧ (3 + 2 - 1) / 2 + 1 ≠ 2 := by
  constructor
  · rfl
  · decide

/-! ## `fetch_groups` and `fetch_items` (lines 6-153 of the script) -/

/-- A group entry returned by `fetch_groups` (`id`, `title`). -/
structure GroupInfo where
  id : String
  title : String
deriving DecidableEq

/-- A board object of a `fetch_groups` response (`groups` key optional,
read with `.get('groups', [])`). -/
structure GroupsBoard where
  groups : Option (List GroupInfo)
deriving DecidableEq

/-- The `data` object of a `fetch_groups` response. -/
structure GroupsData where
  boards : Option (List GroupsBoard)
deriving DecidableEq

/-- Lines 6-68 of the script: status check, `'errors' in data` check,
`data.get('data', {}).get('boards', [])`, the non-empty boards check, then
`board.get('groups', [])` and the non-empty groups check (fatal when
empty). -/
def fetch_groups (resp : ApiResponse GroupsData) : Except String (List GroupInfo) :=
  if resp.status_code ≠ 200 then .error "Query failed with status code"
  else if resp.errors.isSome then .error "GraphQL Errors:"
  else
    match (resp.data.map (fun d => d.boards.getD [])).getD [] with
    | [] => .error "No boards found."
    | b :: _ =>
      match b.groups.getD [] with
      | [] => .error "No groups found."
      | g :: gs => .ok (g :: gs)

/-- Lines 70-153 of the script: same checks, then
`group.get('items_page', {})` and `items_page.get('items', [])`; an empty
item list is returned successfully (after printing a notice), not an
error. -/
def fetch_items (resp : ApiResponse FirstData) : Except String (List Item) :=
  if resp.status_code ≠ 200 then .error "Query failed with status code"
  else if resp.errors.isSome then .error "GraphQL Errors:"
  else
    match (resp.data.map (fun d => d.boards.getD [])).getD [] with
    | [] => .error "No boards found."
    | b :: _ =>
      match b.groups.getD [] with
      | [] => .error "No groups found."
      | g :: _ => .ok ((g.items_page.getD emptyItemsPage).items.getD [])

/-! ## `export_items_to_csv` (lines 155-186 of the script)

The artifact is modelled at the cell level: the header row (the
`DictWriter` fieldnames) and one list of cells per item row.  Python dict
semantics matter: the row dict is built by successive assignment
(`'Item ID'`, `'Item Name'`, then one assignment per column value), so a
later assignment to the same key overwrites an earlier one, and
`DictWriter` emits `rowdict.get(field, '')` for each fieldname in order.
`DictWriter`'s default `extrasaction='raise'` raises `ValueError` when a
row dict has a key outside the fieldnames. -/

/-- The column ids of an item, in order. -/
def csvColumnIds (it : Item) : List String := it.column_values.map (fun c => c.id)

/-- The header row: `['Item ID', 'Item Name']` plus the first item's
column ids (lines 167-171). -/
def csvHeaders (first : Item) : List String :=
  "Item ID" :: "Item Name" :: csvColumnIds first

/-- An item's column values as (id, text) pairs, with the `.get('text', '')`
default (line 183). -/
def colPairs (it : Item) : List (String × String) :=
  it.column_values.map (fun c => (c.id, c.text.getD ""))

/-- The sequence of dict assignments building an item's row (lines
178-183), in assignment order. -/
def rowAssignments (it : Item) : List (String × String) :=
  ("Item ID", it.id) :: ("Item Name", it.name) :: colPairs it

/-- The value a key holds after a sequence of dict assignments: the last
assignment to that key wins. -/
def assocLast (k : String) : List (String × String) → Option String
  | [] => none
  | p :: rest =>
    match assocLast k rest with
    | some v => some v
    | none => if p.1 = k then some p.2 else none

/-- The first value associated to a key (ordinary association-list
lookup); agrees with `assocLast` on duplicate-free keys. -/
def lookupFirst (k : String) : List (String × String) → Option String
  | [] => none
  | p :: rest => if p.1 = k then some p.2 else lookupFirst k rest

/-- The cells `DictWriter.writerow` emits for an item:
`rowdict.get(field, '')` for each fieldname in order. -/
def rowCells (headers : List String) (it : Item) : List String :=
  headers.map (fun h => (assocLast h (rowAssignments it)).getD "")

/-- `DictWriter`'s `extrasaction='raise'` test: does the row dict hold a
key outside the fieldnames?  The row dict's keys are `'Item ID'`,
`'Item Name'` (always fieldnames) and the item's column ids. -/
def hasExtraField (headers : List String) (it : Item) : Bool :=
  it.column_values.any (fun c => decide (c.id ∉ headers))

/-- Write the rows in order; the first item whose dict holds a key outside
the fieldnames raises `ValueError`, aborting the export. -/
def writeRows (headers : List String) : List Item → Except String (List (List String))
  | [] => .ok []
  | it :: rest =>
    if hasExtraField headers it then
      .error "ValueError: dict contains fields not in fieldnames"
    else
      match writeRows headers rest with
      | .error e => .error e
      | .ok rows => .ok (rowCells headers it :: rows)

/-- Lines 155-186 of the script: `None` models the empty-input no-op
(print and return, no file written); otherwise headers come from the
first item and every item becomes one row. -/
def export_items_to_csv (items : List Item) :
    Option (Except String (List String × List (List String))) :=
  match items with
  | [] => none
  | first :: rest =>
    match writeRows (csvHeaders first) (first :: rest) with
    | .error e => some (.error e)
    | .ok rows => some (.ok (csvHeaders first, rows))

/-- Reading one CSV row back: the first two cells are identifier and name,
the remaining cells pair up with the remaining headers. -/
def parseRow (headers : List String) (cells : List String) :
    String × String × List (String × String) :=
  (cells.getD 0 "", cells.getD 1 "", (headers.drop 2).zip (cells.drop 2))

/-- Reading the artifact back: parse every row against the header row. -/
def parseCsv (artifact : List String × List (List String)) :
    List (String × String × List (String × String)) :=
  artifact.2.map (parseRow artifact.1)

/-- The round-trip expectation stated by the spec for one item: its
identifier, its name, and, for each schema column, the item's text for
that column — the empty string when the item lacks the column. -/
def renderItem (C : List String) (it : Item) :
    String × String × List (String × String) :=
  (it.id, it.name, C.map (fun c => (c, (lookupFirst c (colPairs it)).getD "")))

/-- C6: empty results split by kind.  A response whose first board carries
an empty (or absent) `groups` list makes `fetch_groups` abort with the
fatal no-groups error; a response whose first group's `items_page` holds
an empty item list makes `fetch_items` return the empty list successfully
(whatever the cursor field holds); and exporting an empty accumulated
result is a no-op (`none`: nothing written), not an error. -/
theorem empty_results_split :
    (∀ (bs : List GroupsBoard),
        fetch_groups ⟨200, none, some ⟨some (⟨some []⟩ :: bs)⟩⟩ =
          .error "No groups found.") ∧
    (∀ (bs : List GroupsBoard),
        fetch_groups ⟨200, none, some ⟨some (⟨none⟩ :: bs)⟩⟩ =
          .error "No groups found.") ∧
    (∀ (co : Option String) (gs : List GroupNode) (bs : List BoardNode),
        fetch_items ⟨200, none, some ⟨some (⟨some (⟨some ⟨co, some []⟩⟩ :: gs)⟩ :: bs)⟩⟩ =
          .ok []) ∧
    export_items_to_csv [] = none :=
  ⟨fun _ => rfl, fun _ => rfl, fun _ _ _ => rfl, rfl⟩

/-- C10: on a single-page response — `boards[0].groups[0].items_page`
holding an item list and no cursor — `fetch_items` and
`fetch_items_recursive` given that same response return the same item
list (and the recursive driver issues exactly the one fetch). -/
theorem single_page_agreement (l : List Item) (gs : List GroupNode)
    (bs : List BoardNode) (nf : String → ApiResponse NextData) (fuel : Nat) :
    fetch_items ⟨200, none, some ⟨some (⟨some (⟨some ⟨none, some l⟩⟩ :: gs)⟩ :: bs)⟩⟩ =
      .ok l ∧
    fetch_items_recursive
        ⟨⟨200, none, some ⟨some (⟨some (⟨some ⟨none, some l⟩⟩ :: gs)⟩ :: bs)⟩⟩, nf⟩ fuel =
      some (.ok l, 1) :=
  ⟨rfl, loopFuel_none ⟨⟨200, none, some ⟨some (⟨some (⟨some ⟨none, some l⟩⟩ :: gs)⟩ :: bs)⟩⟩, nf⟩
    fuel l 1⟩

/-- Success test for an export outcome. -/
def exportOk : Option (Except String (List String × List (List String))) → Bool
  | some (.ok _) => true
  | _ => false

theorem colPairs_keys (it : Item) : (colPairs it).map Prod.fst = csvColumnIds it := by
  simp [colPairs, csvColumnIds]

theorem assocLast_of_not_mem (k : String) (l : List (String × String))
    (h : k ∉ l.map Prod.fst) : assocLast k l = none := by
  induction l with
  | nil => rfl
  | cons p rest ih =>
    simp only [List.map_cons, List.mem_cons, not_or] at h
    simp [assocLast, ih h.2, Ne.symm h.1]

theorem lookupFirst_of_not_mem (k : String) (l : List (String × String))
    (h : k ∉ l.map Prod.fst) : lookupFirst k l = none := by
  induction l with
  | nil => rfl
  | cons p rest ih =>
    simp only [List.map_cons, List.mem_cons, not_or] at h
    simp [lookupFirst, ih h.2, Ne.symm h.1]

/-- On duplicate-free keys, last-assignment-wins lookup agrees with first
lookup. -/
theorem assocLast_eq_lookupFirst (k : String) (l : List (String × String))
    (h : (l.map Prod.fst).Nodup) : assocLast k l = lookupFirst k l := by
  induction l with
  | nil => rfl
  | cons p rest ih =>
    simp only [List.map_cons, List.nodup_cons] at h
    by_cases hk : p.1 = k
    · subst hk
      simp [assocLast, lookupFirst, assocLast_of_not_mem p.1 rest h.1]
    · cases hrest : lookupFirst k rest <;>
        simp [assocLast, lookupFirst, hk, ih h.2, hrest]

theorem zip_self_map {α β : Type} (g : α → β) (l : List α) :
    l.zip (l.map g) = l.map (fun a => (a, g a)) := by
  induction l with
  | nil => rfl
  | cons a t ih => simp [ih]

theorem map_eq_of_mem {α β : Type} (l : List α) (f g : α → β)
    (h : ∀ a ∈ l, f a = g a) : l.map f = l.map g := by
  induction l with
  | nil => rfl
  | cons a t ih => simp [h a (by simp), ih (fun x hx => h x (by simp [hx]))]

theorem assocLast_row_reserved_id (it : Item)
    (hid : "Item ID" ∉ csvColumnIds it) :
    assocLast "Item ID" (rowAssignments it) = some it.id := by
  have h1 : assocLast "Item ID" (colPairs it) = none := by
    apply assocLast_of_not_mem
    rw [colPairs_keys]
    exact hid
  simp [rowAssignments, assocLast, h1]

theorem assocLast_row_reserved_name (it : Item)
    (hname : "Item Name" ∉ csvColumnIds it) :
    assocLast "Item Name" (rowAssignments it) = some it.name := by
  have h1 : assocLast "Item Name" (colPairs it) = none := by
    apply assocLast_of_not_mem
    rw [colPairs_keys]
    exact hname
  simp [rowAssignments, assocLast, h1]

theorem assocLast_row_column (it : Item) (c : String)
    (hII : c ≠ "Item ID") (hIN : c ≠ "Item Name") :
    assocLast c (rowAssignments it) = assocLast c (colPairs it) := by
  rw [rowAssignments]
  cases hval : assocLast c (colPairs it) <;>
    simp [assocLast, hval, Ne.symm hII, Ne.symm hIN]

/-- The cells of one row, when the item's columns avoid the reserved
header names, draw from the schema, and are duplicate-free: identifier,
name, then the item's text for each schema column (empty when absent). -/
theorem rowCells_csvHeaders (first it : Item)
    (hres : ∀ c ∈ csvColumnIds first, c ≠ "Item ID" ∧ c ≠ "Item Name")
    (hsub : ∀ c ∈ csvColumnIds it, c ∈ csvColumnIds first)
    (hnodup : (csvColumnIds it).Nodup) :
    rowCells (csvHeaders first) it =
      it.id :: it.name :: (csvColumnIds first).map
        (fun c => (lookupFirst c (colPairs it)).getD "") := by
  have hid : "Item ID" ∉ csvColumnIds it :=
    fun hmem => (hres _ (hsub _ hmem)).1 rfl
  have hname : "Item Name" ∉ csvColumnIds it :=
    fun hmem => (hres _ (hsub _ hmem)).2 rfl
  rw [rowCells, csvHeaders, List.map_cons, List.map_cons,
    assocLast_row_reserved_id it hid, assocLast_row_reserved_name it hname]
  simp only [Option.getD_some]
  congr 2
  apply map_eq_of_mem
  intro c hc
  rw [assocLast_row_column it c (hres c hc).1 (hres c hc).2,
    assocLast_eq_lookupFirst c (colPairs it) (by rw [colPairs_keys]; exact hnodup)]

theorem hasExtraField_eq_false (headers : List String) (it : Item)
    (h : ∀ c ∈ it.column_values, c.id ∈ headers) :
    hasExtraField headers it = false := by
  simp [hasExtraField]
  exact h

theorem writeRows_ok (headers : List String) (items : List Item)
    (h : ∀ it ∈ items, ∀ c ∈ it.column_values, c.id ∈ headers) :
    writeRows headers items = .ok (items.map (rowCells headers)) := by
  induction items with
  | nil => rfl
  | cons it rest ih =>
    simp [writeRows, hasExtraField_eq_false headers it (h it (by simp)),
      ih (fun x hx => h x (by simp [hx]))]

theorem writeRows_error (headers : List String) (items : List Item)
    (h : ∃ it ∈ items, hasExtraField headers it = true) :
    writeRows headers items =
      .error "ValueError: dict contains fields not in fieldnames" := by
  induction items with
  | nil => simp at h
  | cons it rest ih =>
    rw [writeRows]
    by_cases hx : hasExtraField headers it = true
    · rw [if_pos hx]
    · rcases h with ⟨x, hmem, hbad⟩
      rcases List.mem_cons.mp hmem with rfl | hmem2
      · exact absurd hbad hx
      · rw [if_neg hx, ih ⟨x, hmem2, hbad⟩]

/-- A well-behaved item for the round-trip witness. -/
def itemW : Item := ⟨"7", "w", [⟨"col1", some "v"⟩]⟩

/-- An item whose column id collides with the reserved `Item ID` header. -/
def itemBad : Item := ⟨"1", "n", [⟨"Item ID", some "x"⟩]⟩

/-- A first item with no columns at all. -/
def itemP : Item := ⟨"10", "a", []⟩

/-- An item whose column id is the reserved `Item Name` header — absent
from the first item's columns yet present among the fieldnames. -/
def itemQ : Item := ⟨"20", "b", [⟨"Item Name", some "x"⟩]⟩

/-- C8 (amended): round-trip holds for every non-empty item list whose
schema `C` (the first item's column ids) avoids the reserved header names
`Item ID`/`Item Name`, and whose every item has duplicate-free column ids
drawn from `C`: the export succeeds, produces one row per item, and
parsing the artifact back yields exactly the source tuples — identifier,
name, and each schema column's text, the empty string where an item lacks
the column. -/
theorem export_round_trip (first : Item) (rest : List Item)
    (hres : ∀ c ∈ csvColumnIds first, c ≠ "Item ID" ∧ c ≠ "Item Name")
    (hitems : ∀ it ∈ first :: rest,
      (csvColumnIds it).Nodup ∧ ∀ c ∈ csvColumnIds it, c ∈ csvColumnIds first) :
    export_items_to_csv (first :: rest) =
      some (.ok (csvHeaders first, (first :: rest).map (rowCells (csvHeaders first)))) ∧
    ((first :: rest).map (rowCells (csvHeaders first))).length = (first :: rest).length ∧
    parseCsv (csvHeaders first, (first :: rest).map (rowCells (csvHeaders first))) =
      (first :: rest).map (renderItem (csvColumnIds first)) := by
  have hsubhdr : ∀ it ∈ first :: rest, ∀ c ∈ it.column_values,
      c.id ∈ csvHeaders first := by
    intro it hit c hc
    exact List.mem_cons_of_mem _ (List.mem_cons_of_mem _
      ((hitems it hit).2 _ (List.mem_map_of_mem _ hc)))
  refine ⟨?_, by simp, ?_⟩
  · rw [export_items_to_csv, writeRows_ok _ _ hsubhdr]
  · rw [parseCsv, List.map_map]
    apply map_eq_of_mem
    intro it hit
    simp only [Function.comp_apply]
    rw [rowCells_csvHeaders first it hres (hitems it hit).2 (hitems it hit).1]
    simp [parseRow, renderItem, csvHeaders, zip_self_map]

/-- C8 witness: one item with the single ordinary column `col1` survives
the round trip. -/
theorem export_round_trip_witness :
    export_items_to_csv [itemW] =
      some (.ok (["Item ID", "Item Name", "col1"], [["7", "w", "v"]])) :=
  (export_round_trip itemW [] (by decide) (by decide)).1

/-- C8 counterexample: an item whose column is named `Item ID` — a list
the claim quantifies over, its schema being derived from the first item's
columns — exports, but the dict assignment overwrites the identifier cell
with the column's text, so the re-parsed tuples do not match the source:
the read-back identifier is `"x"`, not `"1"`. -/
theorem export_round_trip_counterexample :
    export_items_to_csv [itemBad] =
      some (.ok (["Item ID", "Item Name", "Item ID"], [["x", "n", "x"]])) ∧
    parseCsv (["Item ID", "Item Name", "Item ID"], [["x", "n", "x"]]) ≠
      [itemBad].map (renderItem (csvColumnIds itemBad)) := by
  refine ⟨rfl, ?_⟩
  decide

/-- C9 (amended): the export of a non-empty list succeeds exactly when
every item's column ids lie among the derived fieldnames — the first
item's column ids *together with* the reserved `Item ID` and `Item Name`
headers; an item with a column id outside the fieldnames makes the dict
writer raise (`extrasaction='raise'`) and the export abort. -/
theorem export_succeeds_iff (first : Item) (rest : List Item) :
    exportOk (export_items_to_csv (first :: rest)) = true ↔
      ∀ it ∈ first :: rest, ∀ c ∈ it.column_values, c.id ∈ csvHeaders first := by
  constructor
  · intro h
    by_contra hneg
    push_neg at hneg
    obtain ⟨it, hmem, c, hc, hnotin⟩ := hneg
    have hbad : hasExtraField (csvHeaders first) it = true := by
      simp [hasExtraField]
      exact ⟨c, hc, hnotin⟩
    have herr := writeRows_error (csvHeaders first) (first :: rest) ⟨it, hmem, hbad⟩
    rw [export_items_to_csv, herr] at h
    simp [exportOk] at h
  · intro h
    rw [export_items_to_csv, writeRows_ok _ _ h]
    rfl

/-- C9 witness: a single column-free item exports successfully, its column
ids (vacuously) within the fieldnames. -/
theorem export_succeeds_iff_witness :
    exportOk (export_items_to_csv [itemP]) = true :=
  (export_succeeds_iff itemP []).mpr (by decide)

/-- C9 counterexample: the second item's column id `Item Name` is *not*
among the first item's column ids (which are empty), yet the export
succeeds — no error is raised, because `Item Name` is one of the reserved
fieldnames; the claim's "subset of the first item's column ids" condition
is therefore not what the code enforces. -/
theorem export_extra_reserved_counterexample :
    export_items_to_csv [itemP, itemQ] =
      some (.ok (["Item ID", "Item Name"], [["10", "a"], ["20", "x"]])) ∧
    "Item Name" ∉ csvColumnIds itemP := by
  refine ⟨rfl, ?_⟩
  decide

end MondayExtract
